import Mathlib

/-!
Verification of the Namada pre-genesis wallet / genesis co-signing slice.

The development shallowly embeds the wallet CLI code
(`apps/src/lib/wallet/mod.rs`, `crates/apps_lib/src/client/utils.rs`,
`crates/apps_lib/src/cli.rs`) and the external boundary it relies on
(the SDK alias store, the on-disk wallet store codec and the TOML
interchange codec), and proves or refutes the specified properties of
key resolution, the password policy, the alias-collision prompt, wallet
loading and the sign-genesis-transactions operation.
-/

set_option autoImplicit false

namespace NamadaSpec

/-- A public key, identified by its content. -/
structure PublicKey where
  id : Nat
deriving DecidableEq

/-- A secret key, identified by its content. -/
structure SecretKey where
  id : Nat
deriving DecidableEq

/-- The public key corresponding to a secret key (same key-pair content). -/
def SecretKey.toPublic (sk : SecretKey) : PublicKey :=
  PublicKey.mk sk.id

/-- Modelled from the spec: the content-derived hash/identifier of a public
key (`PublicKeyHash::from(&pk)`), used as the lookup index into the alias
store. It is determined by the key's content. -/
def PublicKey.hash (pk : PublicKey) : Nat :=
  pk.id

/-- Modelled from the spec: `StoredKeypair` is `{Plain, Encrypted}`; an
`Encrypted` entry is modelled by the secret key its ciphertext decrypts to
together with the password that decrypts it (decryption with any other
password fails with a distinct error). -/
inductive StoredKeypair where
  | plain (sk : SecretKey)
  | encrypted (sk : SecretKey) (pwd : String)
deriving DecidableEq

/-- Modelled from the spec: the keys of a validator key bundle
(`ValidatorData`): a protocol keypair and an Ethereum-bridge keypair. -/
structure ValidatorData where
  protocol_keypair : SecretKey
  eth_bridge_keypair : SecretKey
deriving DecidableEq

/-- The contents of a wallet store: the alias store's keypair map, indexed
by the content-derived public key hash, and the optional validator data. -/
structure Store where
  keys : List (Nat × StoredKeypair)
  validator_data : Option ValidatorData
deriving DecidableEq

/-- An empty store with no keys, no addresses and no validator data. -/
def emptyStore : Store :=
  Store.mk [] none

/-- A wallet: a store directory together with the loaded store contents
(`Wallet::new(store_dir, store)`). -/
structure Wallet where
  store_dir : String
  store : Store
deriving DecidableEq

/-- `FindKeyError` of the SDK wallet: the requested key is absent, or an
encrypted entry failed to decrypt (a distinct, per the spec distinguishable,
condition). -/
inductive FindKeyError where
  | KeyNotFound
  | KeyDecryptionError
deriving DecidableEq

/-- Modelled from the spec: `Wallet::find_key_by_pkh` of the SDK wallet
(declared outside `src/`): look the content-derived hash up directly in the
alias store; a `Plain` hit is returned as is, an `Encrypted` hit is
decrypted with the password acquired by the password policy and a wrong
password fails with the distinct decryption error; a miss is
`KeyNotFound`. The acquired password is threaded in as `pw`. -/
def find_key_by_pkh (w : Wallet) (h : Nat) (pw : String) :
    Except FindKeyError SecretKey :=
  match (w.store.keys.lookup h : Option StoredKeypair) with
  | none => Except.error FindKeyError.KeyNotFound
  | some (StoredKeypair.plain sk) => Except.ok sk
  | some (StoredKeypair.encrypted sk stored_pw) =>
      if pw = stored_pw then Except.ok sk
      else Except.error FindKeyError.KeyDecryptionError

/-- `wallet.get_validator_data()`: the optional validator bundle held by the
wallet. -/
def Wallet.get_validator_data (w : Wallet) : Option ValidatorData :=
  w.store.validator_data

/-- `find_secret_key` from `apps/src/lib/wallet/mod.rs`: for `Some(pk)`,
`wallet.find_key_by_pkh(&PublicKeyHash::from(&pk)).ok().or_else(|| wallet
.get_validator_data().map(extract_key)).ok_or(FindKeyError::KeyNotFound)`,
transposed; the password acquired for decryption is threaded in as `pw`. -/
def find_secret_key (w : Wallet) (pw : String)
    (maybe_pk : Option PublicKey)
    (extract_key : ValidatorData → SecretKey) :
    Except FindKeyError (Option SecretKey) :=
  match maybe_pk with
  | none => Except.ok none
  | some pk =>
      match Option.orElse (find_key_by_pkh w pk.hash pw).toOption
          (fun _ => (Wallet.get_validator_data w).map extract_key) with
      | some sk => Except.ok (some sk)
      | none => Except.error FindKeyError.KeyNotFound

/-- The key-resolution case analysis exactly as the spec words it (the
reference side of the refinement claim): nothing requested resolves to
nothing; a usable directly-aliased key is returned as is regardless of the
rule; otherwise the rule applied to the validator data, if present;
otherwise `KeyNotFound`. -/
def resolve_spec (w : Wallet) (pw : String)
    (maybe_pk : Option PublicKey)
    (rule : ValidatorData → SecretKey) :
    Except FindKeyError (Option SecretKey) :=
  match maybe_pk with
  | none => Except.ok none
  | some pk =>
      match find_key_by_pkh w pk.hash pw with
      | Except.ok sk => Except.ok (some sk)
      | Except.error _ =>
          match Wallet.get_validator_data w with
          | some vd => Except.ok (some (rule vd))
          | none => Except.error FindKeyError.KeyNotFound

/-- The environment variables consulted by `CliWalletUtils::read_password`:
the value of `NAMADA_WALLET_PASSWORD_FILE` and the value of
`NAMADA_WALLET_PASSWORD` (`none` when the variable is unset). -/
structure PwEnv where
  password_file : Option String
  password : Option String
deriving DecidableEq

/-- Outcome of a password-policy call: a returned password, a Rust `panic`
(`expect` on an unreadable password file), or `cli::safe_exit` with the
given process status. -/
inductive PwOutcome where
  | ok (pwd : String)
  | panicked
  | exited (code : Nat)
deriving DecidableEq

/-- The password value computed by the `match` in
`CliWalletUtils::read_password` before the emptiness check: the whole
content of the file named by `NAMADA_WALLET_PASSWORD_FILE` when that
variable is set (`none` here models the `expect` panic on an unreadable
file), else the literal value of `NAMADA_WALLET_PASSWORD` when set, else
the masked tty prompt's answer, with a failed tty read defaulting to `""`
(`unwrap_or_default`). `fs` maps a path to its readable content and `tty`
maps a prompt message to the interactive answer. -/
def raw_password (env : PwEnv) (fs : String → Option String)
    (tty : String → Option String) (prompt_msg : String) : Option String :=
  match env.password_file with
  | some path => fs path
  | none =>
      match env.password with
      | some password => some password
      | none => some ((tty prompt_msg).getD "")

/-- `CliWalletUtils::read_password` from `apps/src/lib/wallet/mod.rs`:
acquire the password per `raw_password`; an empty result prints
`Password cannot be empty` and calls `cli::safe_exit(1)`. -/
def read_password (env : PwEnv) (fs : String → Option String)
    (tty : String → Option String) (prompt_msg : String) : PwOutcome :=
  match raw_password env fs tty prompt_msg with
  | none => PwOutcome.panicked
  | some pwd =>
      if pwd.isEmpty then PwOutcome.exited 1 else PwOutcome.ok pwd

/-- The three password sources of the spec, in priority order. -/
inductive PwSource where
  | file (path : String)
  | envVar (value : String)
  | interactive
deriving DecidableEq

/-- The first configured source in the spec's order: the password-file
variable, then the literal password variable, then the interactive
prompt. -/
def configured_source (env : PwEnv) : PwSource :=
  match env.password_file with
  | some path => PwSource.file path
  | none =>
      match env.password with
      | some value => PwSource.envVar value
      | none => PwSource.interactive

/-- The spec's wording of the password policy (the reference side of the
refinement claim): pick the first configured source, use it exclusively —
the whole content of the file (an unreadable file is fatal, not a fallback
trigger), the variable's literal value, or the interactive answer — and
fail on an empty result. -/
def read_password_spec (env : PwEnv) (fs : String → Option String)
    (tty : String → Option String) (prompt_msg : String) : PwOutcome :=
  let checked : String → PwOutcome := fun pwd =>
    if pwd.isEmpty then PwOutcome.exited 1 else PwOutcome.ok pwd
  match configured_source env with
  | PwSource.file path =>
      match fs path with
      | none => PwOutcome.panicked
      | some content => checked content
  | PwSource.envVar value => checked value
  | PwSource.interactive => checked ((tty prompt_msg).getD "")

/-- The first prompt message of `read_and_confirm_pwd`. -/
def enter_prompt : String :=
  "Enter your encryption password: "

/-- The second, confirmation, prompt message of `read_and_confirm_pwd`. -/
def confirm_prompt : String :=
  "To confirm, please enter the same encryption password once more: "

/-- Outcome of `read_and_confirm_pwd`: a returned optional password together
with whether the unencrypted-storage warning was printed, a panic, or a
`cli::safe_exit` with the given status. -/
inductive ConfirmPwdOutcome where
  | ok (warned_unencrypted : Bool) (pwd : Option String)
  | panicked
  | exited (code : Nat)
deriving DecidableEq

/-- `read_and_confirm_pwd` from `apps/src/lib/wallet/mod.rs`: when
`dont_encrypt` (the source's `unsafe_dont_encrypt`) is set, print the
warning and keep both `password` and `to_confirm` as `None`; otherwise read
the password twice, under the enter prompt and then the confirm prompt;
exit with status 1 when `to_confirm != password`; otherwise return
`password`. -/
def read_and_confirm_pwd (dont_encrypt : Bool) (env : PwEnv)
    (fs : String → Option String) (tty : String → Option String) :
    ConfirmPwdOutcome :=
  if dont_encrypt then
    ConfirmPwdOutcome.ok true none
  else
    match read_password env fs tty enter_prompt with
    | PwOutcome.panicked => ConfirmPwdOutcome.panicked
    | PwOutcome.exited code => ConfirmPwdOutcome.exited code
    | PwOutcome.ok password =>
        match read_password env fs tty confirm_prompt with
        | PwOutcome.panicked => ConfirmPwdOutcome.panicked
        | PwOutcome.exited code => ConfirmPwdOutcome.exited code
        | PwOutcome.ok to_confirm =>
            if to_confirm = password then
              ConfirmPwdOutcome.ok false (some password)
            else ConfirmPwdOutcome.exited 1

/-- One `io::stdin().read_line` event: an I/O error, or a successfully read
line given by its characters (the empty list models `Ok(0)`, end of
input). -/
inductive ReadResult where
  | err
  | line (chars : List Char)
deriving DecidableEq

/-- `ConfirmationResponse` of the SDK wallet: the three outcomes of the
alias-collision prompt. -/
inductive ConfirmationResponse where
  | Replace
  | Skip
  | Reselect (alias_ : String)
deriving DecidableEq

/-- `str::trim` on the characters of a read line: strip leading and
trailing whitespace. -/
def trim_chars (cs : List Char) : List Char :=
  ((cs.dropWhile Char.isWhitespace).reverse.dropWhile Char.isWhitespace).reverse

/-- `CliWalletUtils::show_overwrite_confirmation` from
`apps/src/lib/wallet/mod.rs`, over the stream of stdin read events: a line
starting with `p`/`P` returns `Replace`, with `k`/`K` returns `Skip`, with
`s`/`S` reads one more line and returns `Reselect` of its trimmed content
(an errored second read falls through to the re-prompt); an errored read,
an empty read or any other first character prints `Invalid option, try
again.` and the function calls itself again on the remaining input
(line 100 of the source). The `s`/`S` branch is transcribed with its
second read event pattern-split at top level; `none` means the supplied
events were exhausted while the function was still prompting. -/
def show_overwrite_confirmation : List ReadResult → Option ConfirmationResponse
  | [] => none
  | ReadResult.err :: rest => show_overwrite_confirmation rest
  | ReadResult.line [] :: rest => show_overwrite_confirmation rest
  | ReadResult.line (c :: _) :: [] =>
      if c = 'p' ∨ c = 'P' then some ConfirmationResponse.Replace
      else if c = 's' ∨ c = 'S' then none
      else if c = 'k' ∨ c = 'K' then some ConfirmationResponse.Skip
      else show_overwrite_confirmation []
  | ReadResult.line (c :: _) :: ReadResult.err :: rest2 =>
      if c = 'p' ∨ c = 'P' then some ConfirmationResponse.Replace
      else if c = 's' ∨ c = 'S' then show_overwrite_confirmation rest2
      else if c = 'k' ∨ c = 'K' then some ConfirmationResponse.Skip
      else show_overwrite_confirmation (ReadResult.err :: rest2)
  | ReadResult.line (c :: _) :: ReadResult.line t :: rest2 =>
      if c = 'p' ∨ c = 'P' then some ConfirmationResponse.Replace
      else if c = 's' ∨ c = 'S' then
        some (ConfirmationResponse.Reselect (String.mk (trim_chars t)))
      else if c = 'k' ∨ c = 'K' then some ConfirmationResponse.Skip
      else show_overwrite_confirmation (ReadResult.line t :: rest2)

/-- The number of times `show_overwrite_confirmation` is entered on the
given event stream: `1` for the initial call plus one for every recursive
self-call the source performs (line 100 of `apps/src/lib/wallet/mod.rs`),
mirroring the recursion structure of `show_overwrite_confirmation`
exactly. Each nested self-call occupies a stack frame in the source. -/
def confirmation_call_count : List ReadResult → Nat
  | [] => 1
  | ReadResult.err :: rest => 1 + confirmation_call_count rest
  | ReadResult.line [] :: rest => 1 + confirmation_call_count rest
  | ReadResult.line (c :: _) :: [] =>
      if c = 'p' ∨ c = 'P' then 1
      else if c = 's' ∨ c = 'S' then 1
      else if c = 'k' ∨ c = 'K' then 1
      else 1 + confirmation_call_count []
  | ReadResult.line (c :: _) :: ReadResult.err :: rest2 =>
      if c = 'p' ∨ c = 'P' then 1
      else if c = 's' ∨ c = 'S' then 1 + confirmation_call_count rest2
      else if c = 'k' ∨ c = 'K' then 1
      else 1 + confirmation_call_count (ReadResult.err :: rest2)
  | ReadResult.line (c :: _) :: ReadResult.line t :: rest2 =>
      if c = 'p' ∨ c = 'P' then 1
      else if c = 's' ∨ c = 'S' then 1
      else if c = 'k' ∨ c = 'K' then 1
      else 1 + confirmation_call_count (ReadResult.line t :: rest2)

/-- A read event the prompt does not recognize: an errored read, an empty
read, or a line whose first character is none of `p P s S k K`. Such an
event makes `show_overwrite_confirmation` re-prompt. -/
def invalid_response : ReadResult → Bool
  | ReadResult.err => true
  | ReadResult.line [] => true
  | ReadResult.line (c :: _) =>
      !(c = 'p' || c = 'P' || c = 's' || c = 'S' || c = 'k' || c = 'K')

/-- The state of one on-disk wallet store directory: no store present, a
store present but unreadable/corrupt, or a good store with the given
contents. -/
inductive DiskStore where
  | absent
  | corrupt
  | good (s : Store)
deriving DecidableEq

/-- Errors of the store codec: the store file is missing, or it is present
but unreadable/corrupt. -/
inductive LoadError where
  | notFound
  | corrupt
deriving DecidableEq

/-- Modelled from the spec: `store::load` (declared outside `src/`), the
persistence codec behind `load`: reading the store of a directory, where a
missing store file is an error and a present but unreadable/corrupt store
is an error. -/
def store_load : DiskStore → Except LoadError Store
  | DiskStore.absent => Except.error LoadError.notFound
  | DiskStore.corrupt => Except.error LoadError.corrupt
  | DiskStore.good s => Except.ok s

/-- Modelled from the spec: `store::load_or_new` (declared outside `src/`):
"load returns an empty-but-valid wallet if no store exists yet"; a present
but unreadable/corrupt store is an error. -/
def store_load_or_new : DiskStore → Except LoadError Store
  | DiskStore.absent => Except.ok emptyStore
  | DiskStore.corrupt => Except.error LoadError.corrupt
  | DiskStore.good s => Except.ok s

/-- Outcome of the `Option`-returning `load` of
`apps/src/lib/wallet/mod.rs`: a `cli::safe_exit` with the given status, or
the returned `Option` value. -/
inductive LoadOutcome where
  | exited (code : Nat)
  | returned (w : Option Wallet)
deriving DecidableEq

/-- Outcome of `load_or_new` of `apps/src/lib/wallet/mod.rs`: a
`cli::safe_exit` with the given status, or the returned wallet. -/
inductive LoadOrNewOutcome where
  | exited (code : Nat)
  | returned (w : Wallet)
deriving DecidableEq

/-- `load` from `apps/src/lib/wallet/mod.rs`: `store::load` of the store
directory, exiting with status 1 on any error, else
`Some(Wallet::new(store_dir, store))`. `d` is the on-disk state of
`store_dir`. -/
def wallet_load (store_dir : String) (d : DiskStore) : LoadOutcome :=
  match store_load d with
  | Except.error _ => LoadOutcome.exited 1
  | Except.ok store => LoadOutcome.returned (some (Wallet.mk store_dir store))

/-- `load_or_new` from `apps/src/lib/wallet/mod.rs`: `store::load_or_new`
of the store directory, exiting with status 1 on any error, else
`Wallet::new(store_dir, store)`. -/
def wallet_load_or_new (store_dir : String) (d : DiskStore) : LoadOrNewOutcome :=
  match store_load_or_new d with
  | Except.error _ => LoadOrNewOutcome.exited 1
  | Except.ok store => LoadOrNewOutcome.returned (Wallet.mk store_dir store)

/-- `PRE_GENESIS_DIR` joined under a base directory: `base/pre-genesis`. -/
def pre_genesis_dir_of (base_dir : String) : String :=
  base_dir ++ "/pre-genesis"

/-- `validator_pre_genesis_dir` from `crates/apps_lib/src/client/utils.rs`:
`base_dir.join(PRE_GENESIS_DIR).join(alias)`. -/
def validator_pre_genesis_dir (base_dir alias_ : String) : String :=
  base_dir ++ "/pre-genesis/" ++ alias_

/-- Modelled from the spec: the `Result`-returning wallet `load` of the
`apps_lib` wallet (declared outside `src/`), used by
`try_load_pre_genesis_wallet`: an error when the store of the directory
cannot be found or is unreadable/corrupt, else the wallet. -/
def wallet_load_result (store_dir : String) (disk : String → DiskStore) :
    Except LoadError Wallet :=
  match store_load (disk store_dir) with
  | Except.error e => Except.error e
  | Except.ok store => Except.ok (Wallet.mk store_dir store)

/-- Modelled from the spec: `pre_genesis::load` (declared outside `src/`),
loading a validator's standalone pre-genesis wallet from its directory: an
error when the store cannot be found or is unreadable/corrupt, else the
wallet. -/
def pre_genesis_load (store_dir : String) (disk : String → DiskStore) :
    Except LoadError Wallet :=
  match store_load (disk store_dir) with
  | Except.error e => Except.error e
  | Except.ok store => Except.ok (Wallet.mk store_dir store)

/-- A primary wallet load that may instead have terminated the process. -/
inductive WalletOrExit where
  | exited (code : Nat)
  | ok (w : Wallet)
deriving DecidableEq

/-- `load_pre_genesis_wallet_or_exit` from
`crates/apps_lib/src/client/utils.rs`: `try_load_pre_genesis_wallet` (the
`apps_lib` wallet `load` of `base_dir/pre-genesis`), exiting with status 1
on any load error. -/
def load_pre_genesis_wallet_or_exit (base_dir : String)
    (disk : String → DiskStore) : WalletOrExit :=
  match wallet_load_result (pre_genesis_dir_of base_dir) disk with
  | Except.error _ => WalletOrExit.exited 1
  | Except.ok w => WalletOrExit.ok w

/-- A `Bond` record of `crates/apps_lib/src/client/utils.rs`. -/
structure Bond where
  source : String
  validator : String
  amount : String
deriving DecidableEq

/-- A `BondList` of `crates/apps_lib/src/client/utils.rs`: the `bond`
list serialized under the `bond` key. -/
structure BondList where
  bond : List Bond
deriving DecidableEq

/-- Modelled from the spec: a document in the TOML interchange format,
identified by what it parses to — either a well-formed bond-list document
or any other text. -/
inductive Doc where
  | bondDoc (bl : BondList)
  | otherDoc (s : String)
deriving DecidableEq

/-- Modelled from the spec: `toml::to_string` on a bond list (external
codec): serialization to the interchange document of that bond list. -/
def toml_to_string_bonds (bl : BondList) : Doc :=
  Doc.bondDoc bl

/-- Modelled from the spec: `genesis::transactions::parse_unsigned`
(declared outside `src/`): structural parsing of an interchange document
into the unsigned bond list, failing on any other document. -/
def parse_unsigned : Doc → Option BondList
  | Doc.bondDoc bl => some bl
  | Doc.otherDoc _ => none

/-- A signed transaction bundle: each bond record with the ids of the keys
that signed it. -/
abbrev SignedBundle : Type :=
  List (Bond × List Nat)

/-- `args::Global` of `crates/apps_lib/src/cli.rs`, restricted to the field
this slice reads. -/
structure GlobalArgs where
  base_dir : String
deriving DecidableEq

/-- `args::SignGenesisTxs` of `crates/apps_lib/src/cli.rs`: the `source`,
`validator` and `amount` strings, the optional validator alias and the
hardware-device flags. -/
structure SignGenesisTxsArgs where
  source : String
  validator : String
  amount : String
  validator_alias : Option String
  use_device : Bool
  device_transport : String
deriving DecidableEq

/-- Outcome of `sign_genesis_tx`: a `safe_exit` with the given status, a
Rust panic (`unwrap`), or the signed bundle printed to standard output. -/
inductive SignOutcome where
  | exited (code : Nat)
  | panicked
  | printed (signed : SignedBundle)
deriving DecidableEq

/-- The secondary-wallet resolution inside `sign_genesis_tx`
(`crates/apps_lib/src/client/utils.rs` lines 86–90):
`validator_alias.and_then(|alias| pre_genesis::load(
validator_pre_genesis_dir(base_dir, alias)).ok())` — any load error is
converted to `None` by `.ok()`. -/
def maybe_pre_genesis_wallet (base_dir : String)
    (validator_alias : Option String) (disk : String → DiskStore) :
    Option Wallet :=
  validator_alias.bind fun alias_ =>
    (pre_genesis_load (validator_pre_genesis_dir base_dir alias_) disk).toOption

/-- `sign_genesis_tx` from `crates/apps_lib/src/client/utils.rs`: load the
primary pre-genesis wallet or exit; resolve the optional secondary
validator pre-genesis wallet (load errors swallowed); build the one-element
bond list from the `source`, `validator` and `amount` argument strings;
serialize it to TOML and parse that very content back as the unsigned
bundle (`parse_unsigned(&contents).unwrap()`); sign it (the external
`genesis::transactions::sign_txs` is the parameter `sign_txs`); print the
serialized signed bundle to standard output. `files` is the file system's
documents by path; the function has it available but the source never
reads the document at the `source` path. -/
def sign_genesis_tx (global : GlobalArgs) (args : SignGenesisTxsArgs)
    (disk : String → DiskStore) (files : String → Option Doc)
    (sign_txs : BondList → Wallet → Option Wallet → Bool → String → SignedBundle) :
    SignOutcome :=
  match load_pre_genesis_wallet_or_exit global.base_dir disk with
  | WalletOrExit.exited code => SignOutcome.exited code
  | WalletOrExit.ok wallet =>
      let maybe_wallet :=
        maybe_pre_genesis_wallet global.base_dir args.validator_alias disk
      let bond := Bond.mk args.source args.validator args.amount
      let bond_list := BondList.mk [bond]
      let toml_content := toml_to_string_bonds bond_list
      match parse_unsigned toml_content with
      | none => SignOutcome.panicked
      | some unsigned =>
          SignOutcome.printed
            (sign_txs unsigned wallet maybe_wallet args.use_device
              args.device_transport)

/-- Whether an `Option`-returning load outcome is a returned `None`. -/
def load_returned_none : LoadOutcome → Bool
  | LoadOutcome.returned none => true
  | _ => false

/-- A wallet whose alias store holds, under the hash of public key 7, a
keypair encrypted under the password `"good"`, and which also holds
validator data with protocol key 5 and eth-bridge key 6. -/
def c1_wallet : Wallet :=
  Wallet.mk "dir"
    (Store.mk [(7, StoredKeypair.encrypted (SecretKey.mk 7) "good")]
      (some (ValidatorData.mk (SecretKey.mk 5) (SecretKey.mk 6))))

/-- A wallet whose alias store is empty and which holds validator data with
protocol key 5 and eth-bridge key 6. -/
def c2_wallet : Wallet :=
  Wallet.mk "dir"
    (Store.mk [] (some (ValidatorData.mk (SecretKey.mk 5) (SecretKey.mk 6))))

/-- A sign-genesis invocation whose `source` argument is the path string
`unsigned.toml`, with no validator alias. -/
def c4_args : SignGenesisTxsArgs :=
  SignGenesisTxsArgs.mk "unsigned.toml" "validator-1" "1000" none false "hid"

/-- A disk with a good, empty primary pre-genesis store under `base` and
nothing else. -/
def c4_disk : String → DiskStore :=
  fun p => if p = "base/pre-genesis" then DiskStore.good emptyStore
    else DiskStore.absent

/-- The bond list stored in the document at the path `unsigned.toml`:
different from the bond the CLI arguments describe. -/
def c4_file_bonds : BondList :=
  BondList.mk [Bond.mk "alice" "validator-2" "5"]

/-- A file system holding, at the path `unsigned.toml`, a well-formed
unsigned-transaction document containing `c4_file_bonds`. -/
def c4_files : String → Option Doc :=
  fun p => if p = "unsigned.toml" then some (Doc.bondDoc c4_file_bonds)
    else none

/-- A concrete external signer that signs nothing: it returns every record
of the unsigned bundle with an empty signature set. -/
def trivial_sign : BondList → Wallet → Option Wallet → Bool → String → SignedBundle :=
  fun bl _ _ _ _ => bl.bond.map (fun b => (b, []))

/-- A store holding one plain key, for the C9 scenario's primary wallet. -/
def c9_store : Store :=
  Store.mk [(3, StoredKeypair.plain (SecretKey.mk 3))] none

/-- A disk with a good primary pre-genesis store under `base` and a
corrupt validator pre-genesis store for alias `v1`. -/
def c9_disk : String → DiskStore :=
  fun p => if p = "base/pre-genesis" then DiskStore.good c9_store
    else if p = "base/pre-genesis/v1" then DiskStore.corrupt
    else DiskStore.absent

/-- A sign-genesis invocation that supplies the validator alias `v1`. -/
def c9_args : SignGenesisTxsArgs :=
  SignGenesisTxsArgs.mk "alice" "v1" "1000" (some "v1") false "hid"

/-- A disk on which every store, in particular the primary pre-genesis
store, is corrupt. -/
def c9_disk_all_corrupt : String → DiskStore :=
  fun _ => DiskStore.corrupt

/- ------------------------------------------------------------------ -/
/- Theorems                                                            -/
/- ------------------------------------------------------------------ -/

/-- C1, counterexample: on `c1_wallet` with the wrong password, the alias
store lookup of public key 7 fails with the distinct decryption error, yet
`find_secret_key` does not report it: it silently falls back to the
validator-data extraction rule and hands the caller key 5. -/
theorem find_secret_key_decryption_failure_falls_back :
    find_key_by_pkh c1_wallet (PublicKey.hash (PublicKey.mk 7)) "wrong" =
      Except.error FindKeyError.KeyDecryptionError ∧
    find_secret_key c1_wallet "wrong" (some (PublicKey.mk 7))
      ValidatorData.protocol_keypair =
      Except.ok (some (SecretKey.mk 5)) :=
  And.intro rfl rfl

/-- C1, amended: when decryption of the requested key's alias-store entry
fails, `find_secret_key` treats the key as absent: it falls back to the
validator-data extraction rule when validator data is present and reports
`KeyNotFound` otherwise; the decryption failure is not surfaced to the
caller. -/
theorem find_secret_key_decryption_failure_as_absent
    (w : Wallet) (pw : String) (pk : PublicKey)
    (extract_key : ValidatorData → SecretKey)
    (h : find_key_by_pkh w pk.hash pw =
      Except.error FindKeyError.KeyDecryptionError) :
    find_secret_key w pw (some pk) extract_key =
      match Wallet.get_validator_data w with
      | some vd => Except.ok (some (extract_key vd))
      | none => Except.error FindKeyError.KeyNotFound := by
  cases hv : Wallet.get_validator_data w <;>
    simp [find_secret_key, h, hv, Except.toOption, Option.orElse]

/-- C1, witness for the amended theorem, at `c1_wallet` with the eth-bridge
extraction rule. -/
theorem find_secret_key_decryption_failure_as_absent_witness :
    find_secret_key c1_wallet "wrong" (some (PublicKey.mk 7))
      ValidatorData.eth_bridge_keypair =
      Except.ok (some (SecretKey.mk 6)) := by
  have h := find_secret_key_decryption_failure_as_absent c1_wallet "wrong"
    (PublicKey.mk 7) ValidatorData.eth_bridge_keypair rfl
  simpa using h

/-- C2: when the requested public key is not found in the alias store and
the wallet holds validator data, `find_secret_key` returns `Ok(Some)` of
the extraction rule applied to the validator data — with no hypothesis
whatsoever relating that key to the requested public key, so a mismatched
requested key receives the wrong key without error. -/
theorem find_secret_key_fallback_skips_pk_check
    (w : Wallet) (pw : String) (pk : PublicKey)
    (extract_key : ValidatorData → SecretKey) (vd : ValidatorData)
    (hmiss : find_key_by_pkh w pk.hash pw =
      Except.error FindKeyError.KeyNotFound)
    (hvd : Wallet.get_validator_data w = some vd) :
    find_secret_key w pw (some pk) extract_key =
      Except.ok (some (extract_key vd)) := by
  simp [find_secret_key, hmiss, hvd, Except.toOption, Option.orElse]

/-- C2, witness: on `c2_wallet`, requesting public key 7 — which is not the
public key of the extracted protocol key 5 — still yields `Ok(Some(key
5))`. -/
theorem find_secret_key_fallback_skips_pk_check_witness :
    decide (SecretKey.toPublic (SecretKey.mk 5) = PublicKey.mk 7) = false ∧
    find_secret_key c2_wallet "pw" (some (PublicKey.mk 7))
      ValidatorData.protocol_keypair =
      Except.ok (some (SecretKey.mk 5)) :=
  And.intro rfl
    (find_secret_key_fallback_skips_pk_check c2_wallet "pw" (PublicKey.mk 7)
      ValidatorData.protocol_keypair (ValidatorData.mk (SecretKey.mk 5) (SecretKey.mk 6))
      rfl rfl)

/-- C5: `find_secret_key` coincides with the spec's reference case
analysis `resolve_spec` on every wallet, password, optional requested key
and extraction rule: nothing requested resolves to `Ok(None)`; a usable
directly-aliased key is returned as is regardless of the rule; otherwise
the rule applied to the validator data when present; otherwise
`KeyNotFound`. -/
theorem find_secret_key_eq_resolve_spec
    (w : Wallet) (pw : String) (maybe_pk : Option PublicKey)
    (rule : ValidatorData → SecretKey) :
    find_secret_key w pw maybe_pk rule = resolve_spec w pw maybe_pk rule := by
  cases maybe_pk with
  | none => rfl
  | some pk =>
      cases h : find_key_by_pkh w pk.hash pw with
      | ok sk =>
          simp [find_secret_key, resolve_spec, h, Except.toOption,
            Option.orElse]
      | error e =>
          cases hv : Wallet.get_validator_data w <;>
            simp [find_secret_key, resolve_spec, h, hv, Except.toOption,
              Option.orElse]

/-- C6: `read_password` coincides with the spec's source-priority rule
`read_password_spec` on every environment, file system, tty and prompt:
exactly one source is used — the first configured in the order
password-file variable (whole file content, unreadable file fatal, not a
fallback trigger), literal password variable, interactive prompt — and
sources are never combined. -/
theorem read_password_eq_spec (env : PwEnv) (fs : String → Option String)
    (tty : String → Option String) (prompt_msg : String) :
    read_password env fs tty prompt_msg =
      read_password_spec env fs tty prompt_msg := by
  cases hf : env.password_file with
  | some path =>
      cases hc : fs path <;>
        simp [read_password, read_password_spec, raw_password,
          configured_source, hf, hc]
  | none =>
      cases hp : env.password <;>
        simp [read_password, read_password_spec, raw_password,
          configured_source, hf, hp]

/-- C7: whenever the selected password source resolves to the empty string,
`read_password` terminates the process with status 1, and whenever
`read_password` returns a password to its caller, that password is
non-empty. -/
theorem read_password_empty_is_fatal (env : PwEnv)
    (fs : String → Option String) (tty : String → Option String)
    (prompt_msg : String) :
    (raw_password env fs tty prompt_msg = some "" →
      read_password env fs tty prompt_msg = PwOutcome.exited 1) ∧
    (∀ s, read_password env fs tty prompt_msg = PwOutcome.ok s →
      s.isEmpty = false) := by
  constructor
  · intro h
    simp [read_password, h]
    decide
  · intro s h
    unfold read_password at h
    cases hr : raw_password env fs tty prompt_msg with
    | none => rw [hr] at h; exact absurd h (by simp)
    | some pwd =>
        rw [hr] at h
        by_cases he : pwd.isEmpty
        · simp [he] at h
        · simp [he] at h
          rw [← h]
          exact Bool.eq_false_iff.mpr he

/-- C7, witness: with the password-file variable pointing at an empty file
the process exits with status 1; with the literal variable holding
`"secret"` the returned password is non-empty. -/
theorem read_password_empty_is_fatal_witness :
    read_password (PwEnv.mk (some "pw.txt") none)
      (fun p => if p = "pw.txt" then some "" else none) (fun _ => none)
      "m" = PwOutcome.exited 1 ∧
    ("secret").isEmpty = false :=
  And.intro
    ((read_password_empty_is_fatal (PwEnv.mk (some "pw.txt") none)
      (fun p => if p = "pw.txt" then some "" else none) (fun _ => none)
      "m").1 rfl)
    ((read_password_empty_is_fatal (PwEnv.mk none (some "secret"))
      (fun _ => none) (fun _ => none) "m").2 "secret" rfl)

/-- C8: with encryption disabled, `read_and_confirm_pwd` skips both
prompts, warns that the key material will be stored unencrypted, and
returns no password without terminating; with encryption enabled it reads
the password under the enter prompt and again under the distinct confirm
prompt using the same source rule, returns `Some` of the password exactly
when the two reads agree byte for byte, and exits with status 1 on a
mismatch with no retry. -/
theorem read_and_confirm_pwd_spec (env : PwEnv)
    (fs : String → Option String) (tty : String → Option String) :
    read_and_confirm_pwd true env fs tty = ConfirmPwdOutcome.ok true none ∧
    (∀ p1 p2, read_password env fs tty enter_prompt = PwOutcome.ok p1 →
      read_password env fs tty confirm_prompt = PwOutcome.ok p2 →
      (p2 = p1 →
        read_and_confirm_pwd false env fs tty =
          ConfirmPwdOutcome.ok false (some p1)) ∧
      (p2 ≠ p1 →
        read_and_confirm_pwd false env fs tty =
          ConfirmPwdOutcome.exited 1)) ∧
    decide (enter_prompt = confirm_prompt) = false := by
  refine And.intro rfl (And.intro ?_ (by decide))
  intro p1 p2 h1 h2
  constructor
  · intro heq
    simp [read_and_confirm_pwd, h1, h2, heq]
  · intro hne
    simp [read_and_confirm_pwd, h1, h2, hne]

/-- C8, witness: with no variable configured and a tty that answers `"a"`
to the enter prompt and `"b"` to the confirm prompt, the mismatch exits
with status 1; with encryption disabled the result is a warning and no
password. -/
theorem read_and_confirm_pwd_spec_witness :
    read_and_confirm_pwd false (PwEnv.mk none none) (fun _ => none)
      (fun m => if m = enter_prompt then some "a" else some "b") =
      ConfirmPwdOutcome.exited 1 ∧
    read_and_confirm_pwd true (PwEnv.mk none none) (fun _ => none)
      (fun m => if m = enter_prompt then some "a" else some "b") =
      ConfirmPwdOutcome.ok true none :=
  And.intro
    (((read_and_confirm_pwd_spec (PwEnv.mk none none) (fun _ => none)
      (fun m => if m = enter_prompt then some "a" else some "b")).2.1
      "a" "b" rfl rfl).2 (by decide))
    ((read_and_confirm_pwd_spec (PwEnv.mk none none) (fun _ => none)
      (fun m => if m = enter_prompt then some "a" else some "b")).1)

/-- A single unrecognized read event makes `show_overwrite_confirmation`
fall through to its recursive self-call on the remaining input, costing one
more invocation. -/
theorem confirmation_invalid_step (x : ReadResult) (rest : List ReadResult)
    (h : invalid_response x = true) :
    show_overwrite_confirmation (x :: rest) =
      show_overwrite_confirmation rest ∧
    confirmation_call_count (x :: rest) =
      1 + confirmation_call_count rest := by
  cases x with
  | err => exact And.intro rfl rfl
  | line chars =>
      cases chars with
      | nil => exact And.intro rfl rfl
      | cons c cs =>
          simp only [invalid_response, Bool.not_eq_true',
            Bool.or_eq_false_iff, decide_eq_false_iff_not] at h
          obtain ⟨⟨⟨⟨⟨h1, h2⟩, h3⟩, h4⟩, h5⟩, h6⟩ := h
          cases rest with
          | nil =>
              constructor <;>
                simp [show_overwrite_confirmation, confirmation_call_count,
                  h1, h2, h3, h4, h5, h6]
          | cons r2 rest2 =>
              cases r2 <;> constructor <;>
                simp [show_overwrite_confirmation, confirmation_call_count,
                  h1, h2, h3, h4, h5, h6]

/-- The number of nested `show_overwrite_confirmation` invocations on `n`
consecutive errored reads is `n + 1`: one stack frame per invalid
response. -/
theorem confirmation_call_count_replicate_err (n : Nat) :
    confirmation_call_count (List.replicate n ReadResult.err) = n + 1 := by
  induction n with
  | zero => rfl
  | succ k ih => simp [List.replicate, confirmation_call_count, ih]; omega

/-- C3, counterexample: the number of nested `show_overwrite_confirmation`
invocations is not bounded by any constant — the source re-prompts via a
recursive self-call, one nested invocation (stack frame) per invalid
response, so arbitrarily many invalid responses grow the call depth
without bound; e.g. five errored reads before a valid `k` already cost six
invocations. -/
theorem show_overwrite_confirmation_unbounded_self_calls :
    confirmation_call_count
      (List.replicate 5 ReadResult.err ++ [ReadResult.line ['k']]) = 6 ∧
    ¬ ∃ N : Nat, ∀ inputs : List ReadResult,
      confirmation_call_count inputs ≤ N := by
  constructor
  · rfl
  · rintro ⟨N, hN⟩
    have h := hN (List.replicate N ReadResult.err)
    rw [confirmation_call_count_replicate_err] at h
    omega

/-- C3, amended: `show_overwrite_confirmation` re-prompts on every
unrecognized response rather than applying a default — any run of invalid
responses leaves the eventual outcome exactly that of the remaining input
— but the re-prompt is implemented by a recursive self-call, not an
iterative loop: each invalid response adds one nested invocation, so the
call depth grows linearly and without bound in the number of invalid
responses. -/
theorem show_overwrite_confirmation_reprompts_recursively
    (junk rest : List ReadResult)
    (h : ∀ x ∈ junk, invalid_response x = true) :
    show_overwrite_confirmation (junk ++ rest) =
      show_overwrite_confirmation rest ∧
    confirmation_call_count (junk ++ rest) =
      junk.length + confirmation_call_count rest := by
  induction junk with
  | nil => simp
  | cons x xs ih =>
      have hx := h x (by simp)
      have hxs := ih (fun y hy => h y (by simp [hy]))
      have hstep := confirmation_invalid_step x (xs ++ rest) hx
      constructor
      · rw [List.cons_append, hstep.1, hxs.1]
      · rw [List.cons_append, hstep.2, hxs.2, List.length_cons]
        omega

/-- C3, witness for the amended theorem: an errored read and the
unrecognized line `x` are both re-prompted, and then the line `k` yields
`Skip`; the two invalid responses cost two extra nested invocations. -/
theorem show_overwrite_confirmation_reprompts_recursively_witness :
    show_overwrite_confirmation
        ([ReadResult.err, ReadResult.line ['x']] ++ [ReadResult.line ['k']]) =
      show_overwrite_confirmation [ReadResult.line ['k']] ∧
    confirmation_call_count
        ([ReadResult.err, ReadResult.line ['x']] ++ [ReadResult.line ['k']]) =
      2 + confirmation_call_count [ReadResult.line ['k']] :=
  show_overwrite_confirmation_reprompts_recursively
    [ReadResult.err, ReadResult.line ['x']] [ReadResult.line ['k']] (by decide)

/-- C4: `sign_genesis_tx` never reads the document at the path supplied as
the `source` argument — its outcome is the same for every file system —
and the bundle that gets signed and printed to standard output is the
single bond built from the raw `source`/`validator`/`amount` argument
strings, not the parse of the `unsigned.toml` document, which holds a
different bond list. This contradicts the operation's own CLI help
(`Path to the unsigned transactions TOML file.`). -/
theorem sign_genesis_tx_ignores_source_file :
    (∀ files : String → Option Doc,
      sign_genesis_tx (GlobalArgs.mk "base") c4_args c4_disk files
        trivial_sign =
        SignOutcome.printed
          [(Bond.mk "unsigned.toml" "validator-1" "1000", [])]) ∧
    parse_unsigned ((c4_files "unsigned.toml").getD (Doc.otherDoc "")) =
      some c4_file_bonds ∧
    decide
      (BondList.mk [Bond.mk "unsigned.toml" "validator-1" "1000"] =
        c4_file_bonds) = false :=
  And.intro (fun _ => rfl) (And.intro rfl rfl)

/-- C9, counterexample: with the validator alias `v1` naming a corrupt
validator pre-genesis store, `sign_genesis_tx` does not terminate the
process: the secondary load failure is swallowed and the operation
proceeds and prints the signed bundle, rather than exiting non-zero. -/
theorem sign_genesis_tx_corrupt_secondary_proceeds :
    c9_disk (validator_pre_genesis_dir "base" "v1") = DiskStore.corrupt ∧
    sign_genesis_tx (GlobalArgs.mk "base") c9_args c9_disk (fun _ => none)
      trivial_sign =
      SignOutcome.printed [(Bond.mk "alice" "v1" "1000", [])] :=
  And.intro rfl rfl

/-- C9, amended: with no store present, `load_or_new` returns an empty but
valid wallet; a present but corrupt store is fatal (exit status 1) on
`load`, on `load_or_new` and on the primary pre-genesis wallet load inside
`sign_genesis_tx` — but not for the secondary validator pre-genesis wallet
during genesis co-signing, whose load failure is silently treated as
having no secondary wallet. -/
theorem wallet_load_corrupt_fatal_except_secondary
    (dir : String) (g : GlobalArgs) (args : SignGenesisTxsArgs)
    (disk : String → DiskStore) (files : String → Option Doc)
    (sign_txs : BondList → Wallet → Option Wallet → Bool → String → SignedBundle)
    (alias_ : String) :
    wallet_load_or_new dir DiskStore.absent =
      LoadOrNewOutcome.returned (Wallet.mk dir emptyStore) ∧
    wallet_load dir DiskStore.corrupt = LoadOutcome.exited 1 ∧
    wallet_load_or_new dir DiskStore.corrupt = LoadOrNewOutcome.exited 1 ∧
    (disk (pre_genesis_dir_of g.base_dir) = DiskStore.corrupt →
      sign_genesis_tx g args disk files sign_txs = SignOutcome.exited 1) ∧
    (args.validator_alias = some alias_ →
      disk (validator_pre_genesis_dir g.base_dir alias_) =
        DiskStore.corrupt →
      maybe_pre_genesis_wallet g.base_dir args.validator_alias disk =
        none) := by
  refine And.intro rfl (And.intro rfl (And.intro rfl (And.intro ?_ ?_)))
  · intro h
    simp [sign_genesis_tx, load_pre_genesis_wallet_or_exit,
      wallet_load_result, h, store_load]
  · intro ha h
    simp [maybe_pre_genesis_wallet, ha, pre_genesis_load, h, store_load,
      Except.toOption]

/-- C9, witness for the amended theorem: a corrupt primary store makes
`sign_genesis_tx` exit with status 1, and the corrupt `v1` validator store
resolves to no secondary wallet. -/
theorem wallet_load_corrupt_fatal_except_secondary_witness :
    sign_genesis_tx (GlobalArgs.mk "base") c9_args c9_disk_all_corrupt
      (fun _ => none) trivial_sign = SignOutcome.exited 1 ∧
    maybe_pre_genesis_wallet "base" (some "v1") c9_disk = none :=
  And.intro
    ((wallet_load_corrupt_fatal_except_secondary "d" (GlobalArgs.mk "base")
      c9_args c9_disk_all_corrupt (fun _ => none) trivial_sign
      "v1").2.2.2.1 rfl)
    ((wallet_load_corrupt_fatal_except_secondary "d" (GlobalArgs.mk "base")
      c9_args c9_disk (fun _ => none) trivial_sign "v1").2.2.2.2 rfl rfl)

/-- C10: the `Option`-returning `load` never returns `None`: on every
store directory and every disk state it either terminates the process or
returns `Some` wallet, so callers cannot observe "no wallet" through its
interface. -/
theorem wallet_load_never_returns_none (dir : String) (d : DiskStore) :
    load_returned_none (wallet_load dir d) = false := by
  cases d <;> rfl

end NamadaSpec
